import Mathlib

set_option maxHeartbeats 1000000

/-!
Shallow embedding of the "AceExam Pro" PDF study-guide generator
(React/TypeScript single-page app).  The embedding follows the head
variant of each source file: `src/types.ts` (data model),
`src/services/geminiService.ts` (`GeminiService.apiFetch`,
`GeminiService.generateTechnicalDiagram`), `src/api/solver.ts`
(`extractQuestionsAction`, `solveQuestionsAction`),
`src/services/pdfService.ts` (`PdfService.extractText`) and
`src/App.tsx` (`handleProcess`, `onFileSelected`, `reset`).

Remote calls are modelled by explicit oracles: the outcome of the k-th
invocation of a wrapped thunk is `action k : Except String α` (an
exception carrying its message string, or a value); the JSON parser is
an oracle `parse : String → Option (List QuestionItem)` (`none` models
a `JSON.parse` exception).  JavaScript `undefined` for optional string
fields is modelled by `Option String`, and the falsy test `!s` on a
string by `s = ""` (on an optional string by `none` or `some ""`).
-/

/-- Workflow stages, from `ProcessStatus` in `src/types.ts`. -/
inductive ProcessStatus where
  | IDLE
  | CONFIGURING
  | UPLOADING
  | EXTRACTING
  | ANALYZING
  | GENERATING
  | GENERATING_DIAGRAMS
  | CREATING_PDF
  | COMPLETED
  | ERROR
deriving DecidableEq, Repr

/-- Workflow progress snapshot, from `ProcessingState` in `src/types.ts`. -/
structure ProcessingState where
  status : ProcessStatus
  progress : Nat
  message : String
deriving DecidableEq, Repr

/-- One exam question and its derived artifacts, from `QuestionItem`
in `src/types.ts`; optional fields are `Option`s. -/
structure QuestionItem where
  number : String
  question : String
  answer : Option String := none
  diagramPrompt : Option String := none
  diagramDataUrl : Option String := none
  referenceDocUrl : Option String := none
  referenceVideoUrl : Option String := none
deriving DecidableEq, Repr

/-- User-supplied classification, from `AcademicContext` in `src/types.ts`. -/
structure AcademicContext where
  field : String
  subField : String
  subject : String
deriving DecidableEq, Repr

/-- The React state of `App` (`src/App.tsx`): the `hasKey`, `context`,
`processing`, `results` and `downloadUrl` `useState` cells. -/
structure AppState where
  hasKey : Bool
  context : AcademicContext
  processing : ProcessingState
  results : List QuestionItem
  downloadUrl : Option String
deriving DecidableEq, Repr

/-- Character lists: does `pat` occur at the head of `cs`? -/
def headMatches : List Char → List Char → Bool
  | [], _ => true
  | _ :: _, [] => false
  | p :: ps, c :: cs => p == c && headMatches ps cs

/-- Character lists: does `pat` occur anywhere in `cs`? -/
def hasSubstr (pat : List Char) : List Char → Bool
  | [] => headMatches pat []
  | c :: cs => headMatches pat (c :: cs) || hasSubstr pat cs

/-- JavaScript `s.includes(pat)`: substring occurrence on the
underlying character lists. -/
def strContains (s pat : String) : Bool :=
  hasSubstr pat.data s.data

/-- The whitespace characters stripped by `trim()`. -/
def isWsChar (c : Char) : Bool :=
  c == ' ' || c == '\t' || c == '\n' || c == '\r'

/-- JavaScript `s.trim()`: strip leading and trailing whitespace. -/
def jsTrim (s : String) : String :=
  ⟨(((s.data.dropWhile isWsChar).reverse.dropWhile isWsChar).reverse)⟩

/-- The quota-error test of `GeminiService.apiFetch`
(`src/services/geminiService.ts` line 17): the error message contains
`'429'` or `'RESOURCE_EXHAUSTED'`. -/
def isQuotaError (msg : String) : Bool :=
  strContains msg "429" || strContains msg "RESOURCE_EXHAUSTED"

/-- Observable outcome of a run of `apiFetch`: the final result, the
number of invocations of the wrapped thunk, and the list of backoff
delays (in ms) waited between invocations, in order. -/
structure FetchTrace (α : Type) where
  result : Except String α
  attempts : Nat
  delays : List Nat
deriving Repr

/-- `GeminiService.apiFetch` (`src/services/geminiService.ts` lines
11-25).  `action k` is the outcome of the k-th invocation of the
wrapped thunk.  On an error whose message carries the quota signature,
while `retries > 0`, it waits `delay` ms and recurses with
`retries - 1` and `delay * 2`; every other error propagates at once.
Defaults in the source: `retries = 2`, `delay = 2000`. -/
def apiFetch {α : Type} (action : Nat → Except String α) :
    Nat → Nat → Nat → FetchTrace α
  | 0, _, k =>
    match action k with
    | .ok v => ⟨.ok v, 1, []⟩
    | .error e => ⟨.error e, 1, []⟩
  | retries + 1, delay, k =>
    match action k with
    | .ok v => ⟨.ok v, 1, []⟩
    | .error e =>
      if isQuotaError e then
        let t := apiFetch action retries (delay * 2) (k + 1)
        ⟨t.result, t.attempts + 1, delay :: t.delays⟩
      else ⟨.error e, 1, []⟩

/-- The error message thrown by `getAI` in `src/api/solver.ts` when
`process.env.API_KEY` is absent. -/
def apiKeyMissingMsg : String :=
  "API_KEY_MISSING: Environment variable process.env.API_KEY is not defined. Please select a key."

/-- `getAI` (`src/api/solver.ts` lines 11-18): throws when the key is
absent or empty (falsy), otherwise yields a client handle. -/
def getAI (apiKey : Option String) : Except String Unit :=
  match apiKey with
  | none => .error apiKeyMissingMsg
  | some k => if k = "" then .error apiKeyMissingMsg else .ok ()

/-- `extractQuestionsAction` (`src/api/solver.ts` lines 20-53, head
variant).  `remote` is the outcome of the `generateContent` call
(`response.text` may be absent); `parse` is the `JSON.parse` oracle.
An empty/absent response yields `[]`; a parse exception is caught and
yields `[]`; a missing key or a remote error propagates. -/
def extractQuestionsAction (apiKey : Option String)
    (remote : Except String (Option String))
    (parse : String → Option (List QuestionItem)) :
    Except String (List QuestionItem) :=
  match getAI apiKey with
  | .error e => .error e
  | .ok _ =>
    match remote with
    | .error e => .error e
    | .ok none => .ok []
    | .ok (some c) =>
      if c = "" then .ok []
      else
        match parse (jsTrim c) with
        | some qs => .ok qs
        | none => .ok []

/-- `solveQuestionsAction` (`src/api/solver.ts` lines 55-102, head
variant).  An empty/absent response maps every input item to a copy
with answer `"AI generation failed."`; a parse exception maps every
input item to a copy with answer `"Error formatting the response."`;
a successful parse is returned verbatim; a missing key or a remote
error propagates. -/
def solveQuestionsAction (apiKey : Option String)
    (remote : Except String (Option String))
    (parse : String → Option (List QuestionItem))
    (questions : List QuestionItem) :
    Except String (List QuestionItem) :=
  match getAI apiKey with
  | .error e => .error e
  | .ok _ =>
    match remote with
    | .error e => .error e
    | .ok none =>
      .ok (questions.map (fun q => { q with answer := some "AI generation failed." }))
    | .ok (some c) =>
      if c = "" then
        .ok (questions.map (fun q => { q with answer := some "AI generation failed." }))
      else
        match parse (jsTrim c) with
        | some qs => .ok qs
        | none =>
          .ok (questions.map (fun q => { q with answer := some "Error formatting the response." }))

/-- `GeminiService.generateTechnicalDiagram` (`src/services/geminiService.ts`
lines 35-42): runs the diagram action through `apiFetch` and catches
every error, returning `undefined` (here `none`). -/
def generateTechnicalDiagram (action : Nat → Except String (Option String))
    (retries delay : Nat) : Option String :=
  match (apiFetch action retries delay 0).result with
  | .ok v => v
  | .error _ => none

/-- Text content of one PDF page: the `str` fields of the items of
`page.getTextContent()`, joined with a single space
(`src/services/pdfService.ts` line 52). -/
def pageJoin (pg : List String) : String :=
  String.intercalate " " pg

/-- The `fullText` accumulated by the page loop of
`PdfService.extractText` (`src/services/pdfService.ts` lines 47-54):
each page's joined text followed by a newline, concatenated in page
order. -/
def fullTextOf : List (List String) → String
  | [] => ""
  | pg :: rest => (pageJoin pg ++ "\n") ++ fullTextOf rest

/-- `PdfService.extractText` (`src/services/pdfService.ts` lines
42-58, head variant), with the parsed document abstracted as its list
of pages, each page a list of text fragments.  Throws
`"No text found in PDF."` exactly when the accumulated text trims to
the empty string. -/
def extractText (pages : List (List String)) : Except String String :=
  if jsTrim (fullTextOf pages) = "" then .error "No text found in PDF."
  else .ok (fullTextOf pages)

/-- Modelled from the spec: the output format described in section 4.1
("concatenating every page's text content in page order, inserting a
newline between pages and a single space between same-page text
fragments"), i.e. page texts joined with `"\n"` as a separator and no
trailing newline. -/
def specPageText : List (List String) → String
  | [] => ""
  | [pg] => pageJoin pg
  | pg :: rest => pageJoin pg ++ "\n" ++ specPageText rest

/-- DOM side effects of the file-selection handler: whether an alert
was shown, whether the subject input was focused, and whether
`handleProcess` was started. -/
structure UIEffects where
  alerted : Bool
  focusedSubject : Bool
  startedProcess : Bool
deriving DecidableEq, Repr

/-- `onFileSelected` (`src/App.tsx` lines 147-159): with no file,
nothing happens; with a blank (trim-empty) subject the handler alerts,
re-focuses the subject input and returns without touching any state;
otherwise it starts `handleProcess` on the file. -/
def onFileSelected (st : AppState) (file : Option String) :
    AppState × UIEffects :=
  match file with
  | none => (st, ⟨false, false, false⟩)
  | some _ =>
    if jsTrim st.context.subject = "" then (st, ⟨true, true, false⟩)
    else (st, ⟨false, false, true⟩)

/-- Outcomes of the remote/library calls a single `handleProcess` run
performs, one field per pipeline stage.  `genDiagram` is total
(`generateTechnicalDiagram` never throws); `generatePdf` yields the
object URL published for the generated blob. -/
structure PipelineEnv where
  extractText : Except String String
  extractQuestions : String → Except String (List QuestionItem)
  solveQuestions : List QuestionItem → Except String (List QuestionItem)
  genDiagram : String → Option String
  generatePdf : List QuestionItem → Except String String

/-- The message stored by the catch block of `handleProcess`
(`src/App.tsx` line 142): `e.message || 'An internal engine error
occurred.'` — the exception's message, unless it is falsy. -/
def errorMessageOf (m : String) : String :=
  if m = "" then "An internal engine error occurred." else m

/-- The auth test of the catch block of `handleProcess`
(`src/App.tsx` line 135). -/
def isAuthError (m : String) : Bool :=
  strContains m "API Key not found" || strContains m "401" || strContains m "auth"

/-- The catch block of `handleProcess` (`src/App.tsx` lines 131-144):
clears `hasKey` on auth-looking messages and replaces the processing
state with an `ERROR` snapshot at progress 0. -/
def catchState (st : AppState) (m : String) : AppState :=
  { st with
    hasKey := if isAuthError m then false else st.hasKey,
    processing := ⟨ProcessStatus.ERROR, 0, errorMessageOf m⟩ }

/-- The per-question body of the diagram fan-out in `handleProcess`
(`src/App.tsx` lines 108-119): a question with a `diagramPrompt` gets
an independent copy with `diagramDataUrl` set to its own diagram
call's result; a question without a prompt is returned unchanged.
(The inner `catch` in the source is dead code, because
`generateTechnicalDiagram` never throws.) -/
def applyDiagram (gen : String → Option String) (q : QuestionItem) :
    QuestionItem :=
  match q.diagramPrompt with
  | some p => { q with diagramDataUrl := gen p }
  | none => q

/-- The diagram-rendering stage of `handleProcess`:
`Promise.all(solved.map ...)` — positionally independent per-question
enrichment, merged back in order. -/
def diagramStage (gen : String → Option String)
    (solved : List QuestionItem) : List QuestionItem :=
  solved.map (applyDiagram gen)

/-- The error thrown by `handleProcess` when question extraction
returns an empty list (`src/App.tsx` line 101). -/
def noQuestionsMsg : String :=
  "No exam questions found. Ensure PDF is text-based (not a scan)."

/-- `handleProcess` (`src/App.tsx` lines 91-145, head variant): the
sequential pipeline over the stage outcomes in `env`, with the single
try/catch routing any stage's exception to `catchState`.  `results`
is set before PDF assembly, so it survives an assembly failure; on
success the download URL is replaced and the run completes. -/
def handleProcess (env : PipelineEnv) (st : AppState) : AppState :=
  match env.extractText with
  | .error e => catchState st e
  | .ok rawText =>
    match env.extractQuestions rawText with
    | .error e => catchState st e
    | .ok questions =>
      if questions.isEmpty then catchState st noQuestionsMsg
      else
        match env.solveQuestions questions with
        | .error e => catchState st e
        | .ok solved =>
          let solvedWithDiagrams := diagramStage env.genDiagram solved
          let st1 := { st with results := solvedWithDiagrams }
          match env.generatePdf solvedWithDiagrams with
          | .error e => catchState st1 e
          | .ok url =>
            { st1 with
              downloadUrl := some url,
              processing := ⟨ProcessStatus.COMPLETED, 100, "Solutions Ready"⟩ }

/-- `reset` (`src/App.tsx` lines 161-166): restores the idle
processing snapshot, empties the results, revokes the previous
download URL when present (second component: the list of revoked
URLs) and clears it.  Nothing else is touched. -/
def reset (st : AppState) : AppState × List String :=
  ({ st with
     processing := ⟨ProcessStatus.IDLE, 0, "System Ready"⟩,
     results := [],
     downloadUrl := none },
   st.downloadUrl.toList)

/-! ### Retry wrapper lemmas (claim C1) -/

theorem apiFetch_ok {α : Type} (action : Nat → Except String α)
    (retries delay k : Nat) (v : α) (hak : action k = .ok v) :
    apiFetch action retries delay k = ⟨.ok v, 1, []⟩ := by
  cases retries <;> simp [apiFetch, hak]

theorem apiFetch_nonquota_immediate {α : Type} (action : Nat → Except String α)
    (retries delay k : Nat) (e : String) (hak : action k = .error e)
    (hq : isQuotaError e = false) :
    apiFetch action retries delay k = ⟨.error e, 1, []⟩ := by
  cases retries <;> simp [apiFetch, hak, hq]

theorem apiFetch_zero_error {α : Type} (action : Nat → Except String α)
    (delay k : Nat) (e : String) (hak : action k = .error e) :
    apiFetch action 0 delay k = ⟨.error e, 1, []⟩ := by
  simp [apiFetch, hak]

theorem apiFetch_succ_quota {α : Type} (action : Nat → Except String α)
    (n delay k : Nat) (e : String) (hak : action k = .error e)
    (hq : isQuotaError e = true) :
    apiFetch action (n + 1) delay k =
      ⟨(apiFetch action n (delay * 2) (k + 1)).result,
       (apiFetch action n (delay * 2) (k + 1)).attempts + 1,
       delay :: (apiFetch action n (delay * 2) (k + 1)).delays⟩ := by
  simp [apiFetch, hak, hq]

theorem apiFetch_attempts_bound {α : Type} (action : Nat → Except String α) :
    ∀ retries delay k, (apiFetch action retries delay k).attempts ≤ retries + 1 := by
  intro retries
  induction retries with
  | zero =>
    intro delay k
    cases hak : action k with
    | ok v => rw [apiFetch_ok action 0 delay k _ hak]
    | error e => rw [apiFetch_zero_error action delay k e hak]
  | succ n ih =>
    intro delay k
    cases hak : action k with
    | ok v => rw [apiFetch_ok action (n + 1) delay k _ hak]; simp
    | error e =>
      by_cases hq : isQuotaError e
      · rw [apiFetch_succ_quota action n delay k e hak hq]
        have := ih (delay * 2) (k + 1)
        simp only []
        omega
      · rw [apiFetch_nonquota_immediate action (n + 1) delay k e hak
          (Bool.not_eq_true _ ▸ hq)]
        simp

theorem apiFetch_delays_geometric {α : Type} (action : Nat → Except String α) :
    ∀ retries delay k, (apiFetch action retries delay k).delays =
      (List.range (apiFetch action retries delay k).delays.length).map
        (fun i => delay * 2 ^ i) := by
  intro retries
  induction retries with
  | zero =>
    intro delay k
    cases hak : action k with
    | ok v => rw [apiFetch_ok action 0 delay k _ hak]; simp
    | error e => rw [apiFetch_zero_error action delay k e hak]; simp
  | succ n ih =>
    intro delay k
    cases hak : action k with
    | ok v => rw [apiFetch_ok action (n + 1) delay k _ hak]; simp
    | error e =>
      by_cases hq : isQuotaError e
      · rw [apiFetch_succ_quota action n delay k e hak hq]
        simp only [List.length_cons, List.range_succ_eq_map, List.map_cons,
          List.map_map, pow_zero, mul_one]
        have hfun : ((fun i => delay * 2 ^ i) ∘ Nat.succ) =
            (fun i => delay * 2 * 2 ^ i) := by
          funext i
          simp only [Function.comp_apply, pow_succ]
          ring
        rw [hfun]
        exact congrArg (delay :: ·) (ih (delay * 2) (k + 1))
      · rw [apiFetch_nonquota_immediate action (n + 1) delay k e hak
          (Bool.not_eq_true _ ▸ hq)]
        simp

theorem apiFetch_persistent_quota {α : Type} (action : Nat → Except String α)
    (e : String) (hq : isQuotaError e = true) (hall : ∀ j, action j = .error e) :
    ∀ retries delay k, (apiFetch action retries delay k).result = .error e ∧
      (apiFetch action retries delay k).attempts = retries + 1 := by
  intro retries
  induction retries with
  | zero =>
    intro delay k
    rw [apiFetch_zero_error action delay k e (hall k)]
    exact ⟨rfl, rfl⟩
  | succ n ih =>
    intro delay k
    rw [apiFetch_succ_quota action n delay k e (hall k) hq]
    have := ih (delay * 2) (k + 1)
    exact ⟨this.1, by simp [this.2]⟩

/-- Claim C1: `GeminiService.apiFetch` retries a failure only when the
error message carries the quota signature (`'429'` or
`'RESOURCE_EXHAUSTED'`) and the retry budget is not exhausted; the
backoff delays form the doubling sequence `delay * 2 ^ i` starting
from the configured base (default `2000` ms = 2 s, budget
`retries = 2`, hence at most 3 attempts); a non-quota error propagates
immediately with no retry and no wait, and a persistent quota error
propagates after exactly `retries + 1` attempts rather than being
retried indefinitely. -/
theorem apiFetch_retry_policy {α : Type} (action : Nat → Except String α)
    (retries delay k : Nat) :
    (∀ e, action k = .error e → isQuotaError e = false →
        apiFetch action retries delay k = ⟨.error e, 1, []⟩) ∧
    (apiFetch action retries delay k).attempts ≤ retries + 1 ∧
    (apiFetch action retries delay k).delays =
      (List.range (apiFetch action retries delay k).delays.length).map
        (fun i => delay * 2 ^ i) ∧
    (∀ e, isQuotaError e = true → (∀ j, action j = .error e) →
        (apiFetch action retries delay k).result = .error e ∧
        (apiFetch action retries delay k).attempts = retries + 1) :=
  ⟨fun e hak hq => apiFetch_nonquota_immediate action retries delay k e hak hq,
   apiFetch_attempts_bound action retries delay k,
   apiFetch_delays_geometric action retries delay k,
   fun e hq hall => apiFetch_persistent_quota action e hq hall retries delay k⟩

/-- Claim C1 witness: with the source defaults (`retries = 2`,
`delay = 2000`), a non-quota error propagates after one attempt with
no waits, and a persistent quota error propagates after exactly three
attempts. -/
theorem apiFetch_retry_policy_witness :
    apiFetch (fun _ => (.error "boom" : Except String Nat)) 2 2000 0 = ⟨.error "boom", 1, []⟩ ∧
    (apiFetch (fun _ => (.error "HTTP 429" : Except String Nat)) 2 2000 0).result = .error "HTTP 429" ∧
    (apiFetch (fun _ => (.error "HTTP 429" : Except String Nat)) 2 2000 0).attempts = 3 := by
  refine ⟨?_, ?_, ?_⟩
  · exact (apiFetch_retry_policy (fun _ => .error "boom") 2 2000 0).1 "boom" rfl (by decide)
  · exact ((apiFetch_retry_policy (fun _ => .error "HTTP 429") 2 2000 0).2.2.2 "HTTP 429"
      (by decide) (fun _ => rfl)).1
  · exact ((apiFetch_retry_policy (fun _ => .error "HTTP 429") 2 2000 0).2.2.2 "HTTP 429"
      (by decide) (fun _ => rfl)).2

/-! ### Document text extractor (claim C2) -/

theorem strAppend_assoc (a b c : String) : a ++ b ++ c = a ++ (b ++ c) := by
  apply String.ext
  simp [String.data_append]

theorem fullTextOf_eq_specPageText :
    ∀ pages : List (List String), pages ≠ [] →
      fullTextOf pages = specPageText pages ++ "\n" := by
  intro pages
  induction pages with
  | nil => intro h; exact absurd rfl h
  | cons pg rest ih =>
    intro _
    cases rest with
    | nil =>
      simp only [fullTextOf, specPageText]
      rw [String.append_empty]
    | cons pg2 rest2 =>
      rw [show fullTextOf (pg :: pg2 :: rest2) =
            (pageJoin pg ++ "\n") ++ fullTextOf (pg2 :: rest2) from rfl]
      rw [ih (by simp)]
      rw [show specPageText (pg :: pg2 :: rest2) =
            pageJoin pg ++ "\n" ++ specPageText (pg2 :: rest2) from rfl]
      simp only [strAppend_assoc]

/-- Claim C2 (amended): `PdfService.extractText` returns the page
texts in page order, each page's fragments joined with a single space
and each page followed by a newline — equivalently, pages separated by
newlines with one additional trailing newline after the last page
(the claim's separator-only format is off by that trailing newline) —
and it throws the `EmptyDocument` error `"No text found in PDF."` if
and only if the accumulated text is empty after trimming. -/
theorem extractText_characterization (pages : List (List String)) :
    ((∃ e, extractText pages = Except.error e) ↔ jsTrim (fullTextOf pages) = "") ∧
    (∀ e, extractText pages = Except.error e → e = "No text found in PDF.") ∧
    (∀ s, extractText pages = Except.ok s → s = fullTextOf pages) ∧
    (pages ≠ [] → fullTextOf pages = specPageText pages ++ "\n") := by
  refine ⟨?_, ?_, ?_, fullTextOf_eq_specPageText pages⟩ <;>
    by_cases h : jsTrim (fullTextOf pages) = "" <;>
      simp [extractText, h]

/-- Claim C2 witness: a two-page document with two fragments on the
first page extracts to `"Hello world\nBye\n"` — space-joined
fragments, newline-separated pages, trailing newline — and the
separator-format text of the same document is `"Hello world\nBye"`. -/
theorem extractText_characterization_witness :
    fullTextOf [["Hello", "world"], ["Bye"]] = "Hello world\nBye\n" ∧
    fullTextOf [["Hello", "world"], ["Bye"]] =
      specPageText [["Hello", "world"], ["Bye"]] ++ "\n" ∧
    extractText [["Hello", "world"], ["Bye"]] = Except.ok "Hello world\nBye\n" := by
  refine ⟨?_, ?_, ?_⟩
  · exact ((extractText_characterization [["Hello", "world"], ["Bye"]]).2.2.1
      "Hello world\nBye\n" rfl).symm
  · exact (extractText_characterization [["Hello", "world"], ["Bye"]]).2.2.2
      (by simp)
  · rfl

/-- Claim C2 counterexample: for the one-page document whose single
page holds the single fragment `"a"`, the extractor returns `"a\n"`,
not the claimed pure between-pages concatenation `"a"`: the output
carries a trailing newline after the final page. -/
theorem extractText_trailing_newline_counterexample :
    extractText [["a"]] = Except.ok "a\n" ∧
    specPageText [["a"]] = "a" ∧
    ("a\n" : String) ≠ "a" := by
  refine ⟨rfl, rfl, by decide⟩

/-! ### Question extraction and solution synthesis (claims C3, C4, C5) -/

/-- Claim C3: `extractQuestionsAction` returns an empty list and does
not throw when the remote response is empty/absent or when its payload
fails to parse as JSON, while a missing/empty credential propagates
the `API_KEY_MISSING` error and a remote (network) failure propagates
its own error. -/
theorem extractQuestionsAction_error_policy
    (remote : Except String (Option String))
    (parse : String → Option (List QuestionItem))
    (key : String) (hkey : key ≠ "") :
    (extractQuestionsAction none remote parse = Except.error apiKeyMissingMsg) ∧
    (extractQuestionsAction (some "") remote parse = Except.error apiKeyMissingMsg) ∧
    (∀ e, remote = Except.error e →
        extractQuestionsAction (some key) remote parse = Except.error e) ∧
    (remote = Except.ok none →
        extractQuestionsAction (some key) remote parse = Except.ok []) ∧
    (remote = Except.ok (some "") →
        extractQuestionsAction (some key) remote parse = Except.ok []) ∧
    (∀ c, remote = Except.ok (some c) → c ≠ "" → parse (jsTrim c) = none →
        extractQuestionsAction (some key) remote parse = Except.ok []) := by
  refine ⟨by simp [extractQuestionsAction, getAI], by simp [extractQuestionsAction, getAI],
    ?_, ?_, ?_, ?_⟩
  · intro e he
    subst he
    simp [extractQuestionsAction, getAI, hkey]
  · intro he
    subst he
    simp [extractQuestionsAction, getAI, hkey]
  · intro he
    subst he
    simp [extractQuestionsAction, getAI, hkey]
  · intro c hc hcne hp
    subst hc
    simp [extractQuestionsAction, getAI, hkey, hcne, hp]

/-- Claim C3 witness: with key `"k"`, an unparseable payload yields
`[]` without throwing, and an absent key yields the credential
error. -/
theorem extractQuestionsAction_error_policy_witness :
    extractQuestionsAction (some "k") (Except.ok (some "not-json")) (fun _ => none) =
      Except.ok [] ∧
    extractQuestionsAction none (Except.ok (some "not-json")) (fun _ => none) =
      Except.error apiKeyMissingMsg := by
  refine ⟨?_, ?_⟩
  · exact (extractQuestionsAction_error_policy (Except.ok (some "not-json"))
      (fun _ => none) "k" (by decide)).2.2.2.2.2 "not-json" rfl (by decide) rfl
  · exact (extractQuestionsAction_error_policy (Except.ok (some "not-json"))
      (fun _ => none) "k" (by decide)).1

/-- Claim C4 counterexample: on a parse failure, the fallback item
produced by `solveQuestionsAction` gets only a placeholder answer —
its `referenceDocUrl` and `referenceVideoUrl` stay `none`, so no
best-effort search-query reference URLs are attached, contrary to the
claim. -/
theorem solveQuestionsAction_no_search_urls_counterexample :
    solveQuestionsAction (some "k") (Except.ok (some "not-json")) (fun _ => none)
        [⟨"1", "Define inertia.", none, none, none, none, none⟩] =
      Except.ok
        [⟨"1", "Define inertia.", some "Error formatting the response.",
          none, none, none, none⟩] ∧
    (⟨"1", "Define inertia.", some "Error formatting the response.",
        none, none, none, none⟩ : QuestionItem).referenceDocUrl = none ∧
    (⟨"1", "Define inertia.", some "Error formatting the response.",
        none, none, none, none⟩ : QuestionItem).referenceVideoUrl = none :=
  ⟨rfl, rfl, rfl⟩

/-- Claim C4 (amended): when the solution-synthesis response is empty
or fails to parse, `solveQuestionsAction` returns a well-formed
fallback containing every input item — each original item preserved
verbatim except that its answer becomes a placeholder text ("AI
generation failed." for an empty response, "Error formatting the
response." for a parse failure); no reference URLs are added, all
other fields are left unchanged, and no item is dropped. -/
theorem solveQuestionsAction_fallback (key : String) (hkey : key ≠ "")
    (remote : Except String (Option String))
    (parse : String → Option (List QuestionItem))
    (questions : List QuestionItem) :
    (remote = Except.ok none →
        solveQuestionsAction (some key) remote parse questions =
          Except.ok (questions.map
            (fun q => { q with answer := some "AI generation failed." }))) ∧
    (remote = Except.ok (some "") →
        solveQuestionsAction (some key) remote parse questions =
          Except.ok (questions.map
            (fun q => { q with answer := some "AI generation failed." }))) ∧
    (∀ c, remote = Except.ok (some c) → c ≠ "" → parse (jsTrim c) = none →
        solveQuestionsAction (some key) remote parse questions =
          Except.ok (questions.map
            (fun q => { q with answer := some "Error formatting the response." }))) ∧
    (∀ msg, (questions.map (fun q => { q with answer := some msg })).length =
        questions.length) := by
  refine ⟨?_, ?_, ?_, fun msg => List.length_map questions _⟩
  · intro he
    subst he
    simp [solveQuestionsAction, getAI, hkey]
  · intro he
    subst he
    simp [solveQuestionsAction, getAI, hkey]
  · intro c hc hcne hp
    subst hc
    simp [solveQuestionsAction, getAI, hkey, hcne, hp]

/-- Claim C4 witness: an empty response maps a fully populated input
item to the same item with only its answer replaced by the
placeholder. -/
theorem solveQuestionsAction_fallback_witness :
    solveQuestionsAction (some "k") (Except.ok none) (fun _ => none)
        [⟨"2", "State the law.", none, some "p", none, some "d", some "v"⟩] =
      Except.ok
        [⟨"2", "State the law.", some "AI generation failed.",
          some "p", none, some "d", some "v"⟩] := by
  have h := (solveQuestionsAction_fallback "k" (by decide) (Except.ok none)
    (fun _ => none)
    [⟨"2", "State the law.", none, some "p", none, some "d", some "v"⟩]).1 rfl
  simpa using h

theorem fallback_forall2 (questions : List QuestionItem) (m : String) (hm : m ≠ "") :
    List.Forall₂
      (fun (q r : QuestionItem) => r.number = q.number ∧ r.question = q.question ∧
        ∃ a, r.answer = some a ∧ a ≠ "")
      questions (questions.map (fun q => { q with answer := some m })) := by
  rw [List.forall₂_map_right_iff]
  exact List.forall₂_same.2 fun q _ => ⟨rfl, rfl, m, rfl, hm⟩

/-- Claim C5 (amended): on the degraded paths (empty or unparseable
solution response) every input item is still present, in order, with
its `number` and `question` intact and a non-empty answer; on the
parse-success path the returned list is exactly the parsed remote
payload, returned verbatim with no local enforcement that items are
preserved or answers non-empty. -/
theorem solveQuestionsAction_preservation (key : String) (hkey : key ≠ "")
    (remote : Except String (Option String))
    (parse : String → Option (List QuestionItem))
    (questions : List QuestionItem) :
    (∀ out, solveQuestionsAction (some key) remote parse questions = Except.ok out →
        (remote = Except.ok none ∨ remote = Except.ok (some "") ∨
         (∃ c, remote = Except.ok (some c) ∧ c ≠ "" ∧ parse (jsTrim c) = none)) →
        List.Forall₂
          (fun (q r : QuestionItem) => r.number = q.number ∧ r.question = q.question ∧
            ∃ a, r.answer = some a ∧ a ≠ "")
          questions out) ∧
    (∀ c qs, remote = Except.ok (some c) → c ≠ "" → parse (jsTrim c) = some qs →
        solveQuestionsAction (some key) remote parse questions = Except.ok qs) := by
  constructor
  · intro out hout hcase
    rcases hcase with h | h | ⟨c, hc, hcne, hp⟩
    · subst h
      simp [solveQuestionsAction, getAI, hkey] at hout
      subst hout
      exact fallback_forall2 questions _ (by decide)
    · subst h
      simp [solveQuestionsAction, getAI, hkey] at hout
      subst hout
      exact fallback_forall2 questions _ (by decide)
    · subst hc
      simp [solveQuestionsAction, getAI, hkey, hcne, hp] at hout
      subst hout
      exact fallback_forall2 questions _ (by decide)
  · intro c qs hc hcne hp
    subst hc
    simp [solveQuestionsAction, getAI, hkey, hcne, hp]

/-- Claim C5 witness: on an empty solution response the single input
item survives with a non-empty placeholder answer. -/
theorem solveQuestionsAction_preservation_witness :
    List.Forall₂
      (fun (q r : QuestionItem) => r.number = q.number ∧ r.question = q.question ∧
        ∃ a, r.answer = some a ∧ a ≠ "")
      [⟨"1", "What is torque?", none, none, none, none, none⟩]
      [⟨"1", "What is torque?", some "AI generation failed.",
        none, none, none, none⟩] := by
  exact (solveQuestionsAction_preservation "k" (by decide) (Except.ok none)
    (fun _ => none) [⟨"1", "What is torque?", none, none, none, none, none⟩]).1
    [⟨"1", "What is torque?", some "AI generation failed.", none, none, none, none⟩]
    rfl (Or.inl rfl)

/-- Claim C5 counterexample: a run that completes successfully can
drop items — when the remote payload parses to `[]` (as `JSON.parse`
does on the text `"[]"`), `solveQuestionsAction` returns the empty
list even though the input held one question. -/
theorem solveQuestionsAction_drop_counterexample :
    solveQuestionsAction (some "k") (Except.ok (some "[]")) (fun _ => some [])
        [⟨"3", "Explain entropy.", none, none, none, none, none⟩] =
      Except.ok [] ∧
    ([] : List QuestionItem).length ≠
      [(⟨"3", "Explain entropy.", none, none, none, none, none⟩ : QuestionItem)].length :=
  ⟨rfl, by decide⟩

/-! ### Workflow controller (claims C6, C7, C8, C9, C10) -/

/-- Claim C6: with a blank (empty or whitespace-only) subject, a file
selection from the `Idle` state changes nothing: the whole app state
(hence `ProcessingState`) keeps its prior value, `handleProcess` is
not started, and the subject input is re-focused (after an alert). -/
theorem onFileSelected_blank_subject (st : AppState) (f : String)
    (_hidle : st.processing.status = ProcessStatus.IDLE)
    (hblank : jsTrim st.context.subject = "") :
    (onFileSelected st (some f)).1 = st ∧
    (onFileSelected st (some f)).2.startedProcess = false ∧
    (onFileSelected st (some f)).2.focusedSubject = true ∧
    (onFileSelected st (some f)).2.alerted = true := by
  simp [onFileSelected, hblank]

/-- Claim C6 witness: the idle state with the whitespace-only subject
`"   "` is left untouched by selecting `"exam.pdf"`, with no pipeline
start and the subject input focused. -/
theorem onFileSelected_blank_subject_witness :
    (onFileSelected
        ⟨true, ⟨"Engineering", "Computer Science & IT", "   "⟩,
         ⟨ProcessStatus.IDLE, 0, "System Ready"⟩, [], none⟩
        (some "exam.pdf")).1 =
      ⟨true, ⟨"Engineering", "Computer Science & IT", "   "⟩,
       ⟨ProcessStatus.IDLE, 0, "System Ready"⟩, [], none⟩ ∧
    (onFileSelected
        ⟨true, ⟨"Engineering", "Computer Science & IT", "   "⟩,
         ⟨ProcessStatus.IDLE, 0, "System Ready"⟩, [], none⟩
        (some "exam.pdf")).2.startedProcess = false := by
  refine ⟨?_, ?_⟩
  · exact (onFileSelected_blank_subject _ "exam.pdf" rfl (by decide)).1
  · exact (onFileSelected_blank_subject _ "exam.pdf" rfl (by decide)).2.1

/-- Claim C7 counterexample: a stage exception whose message is the
empty string is not carried verbatim — the catch block of
`handleProcess` stores the fallback text
`"An internal engine error occurred."` instead. -/
theorem handleProcess_empty_message_counterexample :
    (handleProcess
        ⟨Except.error "", fun _ => Except.ok [], fun _ => Except.ok [],
         fun _ => none, fun _ => Except.ok "blob-url"⟩
        ⟨true, ⟨"Engineering", "Computer Science & IT", "Physics"⟩,
         ⟨ProcessStatus.EXTRACTING, 10, "Processing Document..."⟩, [],
         none⟩).processing.message = "An internal engine error occurred." ∧
    ("An internal engine error occurred." : String) ≠ "" :=
  ⟨rfl, by decide⟩

/-- Claim C7 (amended): whenever any pipeline stage throws, the run
ends in the `ERROR` status with progress 0 and, as the user-visible
message, the exception's message when that message is non-empty (the
falsy empty message is replaced by the fallback text, per
`e.message || '...'`). -/
theorem handleProcess_error_transition (env : PipelineEnv) (st : AppState) :
    (∀ m, env.extractText = Except.error m →
        (handleProcess env st).processing =
          ⟨ProcessStatus.ERROR, 0, errorMessageOf m⟩) ∧
    (∀ t m, env.extractText = Except.ok t →
        env.extractQuestions t = Except.error m →
        (handleProcess env st).processing =
          ⟨ProcessStatus.ERROR, 0, errorMessageOf m⟩) ∧
    (∀ t, env.extractText = Except.ok t →
        env.extractQuestions t = Except.ok [] →
        (handleProcess env st).processing =
          ⟨ProcessStatus.ERROR, 0, noQuestionsMsg⟩) ∧
    (∀ t qs m, env.extractText = Except.ok t →
        env.extractQuestions t = Except.ok qs → qs ≠ [] →
        env.solveQuestions qs = Except.error m →
        (handleProcess env st).processing =
          ⟨ProcessStatus.ERROR, 0, errorMessageOf m⟩) ∧
    (∀ t qs solved m, env.extractText = Except.ok t →
        env.extractQuestions t = Except.ok qs → qs ≠ [] →
        env.solveQuestions qs = Except.ok solved →
        env.generatePdf (diagramStage env.genDiagram solved) = Except.error m →
        (handleProcess env st).processing =
          ⟨ProcessStatus.ERROR, 0, errorMessageOf m⟩) := by
  refine ⟨?_, ?_, ?_, ?_, ?_⟩
  · intro m hm
    simp [handleProcess, hm, catchState]
  · intro t m ht hm
    simp [handleProcess, ht, hm, catchState]
  · intro t ht hq
    simp [handleProcess, ht, hq, catchState, errorMessageOf, noQuestionsMsg]
  · intro t qs m ht hq hne hm
    rcases qs with _ | ⟨a, l⟩
    · exact absurd rfl hne
    · simp [handleProcess, ht, hq, hm, catchState]
  · intro t qs solved m ht hq hne hs hp
    rcases qs with _ | ⟨a, l⟩
    · exact absurd rfl hne
    · simp [handleProcess, ht, hq, hs, hp, catchState]

/-- Claim C7 witness: an extraction failure with the non-empty message
`"Network request failed"` ends the run at `ERROR`, progress 0, with
that exact message. -/
theorem handleProcess_error_transition_witness :
    (handleProcess
        ⟨Except.error "Network request failed", fun _ => Except.ok [],
         fun _ => Except.ok [], fun _ => none, fun _ => Except.ok "blob-url"⟩
        ⟨true, ⟨"Commerce", "Economics", "Micro"⟩,
         ⟨ProcessStatus.IDLE, 0, "System Ready"⟩, [], none⟩).processing =
      ⟨ProcessStatus.ERROR, 0, "Network request failed"⟩ := by
  have h := (handleProcess_error_transition
    ⟨Except.error "Network request failed", fun _ => Except.ok [],
     fun _ => Except.ok [], fun _ => none, fun _ => Except.ok "blob-url"⟩
    ⟨true, ⟨"Commerce", "Economics", "Micro"⟩,
     ⟨ProcessStatus.IDLE, 0, "System Ready"⟩, [], none⟩).1
    "Network request failed" rfl
  have h2 : errorMessageOf "Network request failed" = "Network request failed" := rfl
  rw [h2] at h
  exact h

/-- Claim C8: `generateTechnicalDiagram` never raises — every error of
the wrapped retried call maps to the absent result `none`, a
successful call's value passes through — and the diagram stage
produces an output for every question positionally, each output item
computed from its own input item alone, so one failure cannot affect
any other question. -/
theorem generateTechnicalDiagram_never_raises
    (action : Nat → Except String (Option String)) (retries delay : Nat) :
    (∀ e, (apiFetch action retries delay 0).result = Except.error e →
        generateTechnicalDiagram action retries delay = none) ∧
    (∀ v, (apiFetch action retries delay 0).result = Except.ok v →
        generateTechnicalDiagram action retries delay = v) ∧
    (∀ (gen : String → Option String) (solved : List QuestionItem),
        (diagramStage gen solved).length = solved.length) ∧
    (∀ (gen : String → Option String) (solved : List QuestionItem) (i : Nat),
        (diagramStage gen solved)[i]? =
          Option.map (applyDiagram gen) solved[i]?) := by
  refine ⟨?_, ?_, ?_, ?_⟩
  · intro e he
    simp [generateTechnicalDiagram, he]
  · intro v hv
    simp [generateTechnicalDiagram, hv]
  · intro gen solved
    simp [diagramStage]
  · intro gen solved i
    simp [diagramStage, List.getElem?_map]

/-- Claim C8 witness: a non-retryable content-policy failure of the
image call degrades to `none` under the service defaults. -/
theorem generateTechnicalDiagram_never_raises_witness :
    generateTechnicalDiagram (fun _ => Except.error "content policy violation")
      2 2000 = none := by
  exact (generateTechnicalDiagram_never_raises
    (fun _ => Except.error "content policy violation") 2 2000).1
    "content policy violation" rfl

/-- Claim C9: the diagram stage preserves length and order, leaves
every field except `diagramDataUrl` of every item unchanged, and
returns items without a `diagramPrompt` entirely unchanged. -/
theorem diagramStage_frame (gen : String → Option String)
    (solved : List QuestionItem) :
    (diagramStage gen solved).length = solved.length ∧
    List.Forall₂
      (fun (q r : QuestionItem) => r.number = q.number ∧
        r.question = q.question ∧ r.answer = q.answer ∧
        r.diagramPrompt = q.diagramPrompt ∧
        r.referenceDocUrl = q.referenceDocUrl ∧
        r.referenceVideoUrl = q.referenceVideoUrl ∧
        (q.diagramPrompt = none → r = q))
      solved (diagramStage gen solved) := by
  constructor
  · simp [diagramStage]
  · rw [diagramStage, List.forall₂_map_right_iff]
    refine List.forall₂_same.2 fun q _ => ?_
    cases hd : q.diagramPrompt with
    | none => simp [applyDiagram, hd]
    | some p => simp [applyDiagram, hd]

/-- Claim C9 witness: the frame property at a concrete two-item list,
one item with a diagram prompt and one without. -/
theorem diagramStage_frame_witness :
    List.Forall₂
      (fun (q r : QuestionItem) => r.number = q.number ∧
        r.question = q.question ∧ r.answer = q.answer ∧
        r.diagramPrompt = q.diagramPrompt ∧
        r.referenceDocUrl = q.referenceDocUrl ∧
        r.referenceVideoUrl = q.referenceVideoUrl ∧
        (q.diagramPrompt = none → r = q))
      [⟨"1", "Q1", some "A1", some "a circuit", none, some "d1", some "v1"⟩,
       ⟨"2", "Q2", some "A2", none, none, none, none⟩]
      (diagramStage (fun _ => some "data:image/png;base64,xyz")
        [⟨"1", "Q1", some "A1", some "a circuit", none, some "d1", some "v1"⟩,
         ⟨"2", "Q2", some "A2", none, none, none, none⟩]) :=
  (diagramStage_frame (fun _ => some "data:image/png;base64,xyz")
    [⟨"1", "Q1", some "A1", some "a circuit", none, some "d1", some "v1"⟩,
     ⟨"2", "Q2", some "A2", none, none, none, none⟩]).2

/-- Claim C10: from any status, `reset` restores the processing
snapshot `{IDLE, 0, "System Ready"}`, empties the results, revokes the
previous download URL when one exists and clears it, and leaves the
academic context (and the key flag) unchanged. -/
theorem reset_restores_idle (st : AppState) :
    (reset st).1.processing = ⟨ProcessStatus.IDLE, 0, "System Ready"⟩ ∧
    (reset st).1.results = [] ∧
    (reset st).1.downloadUrl = none ∧
    (reset st).1.context = st.context ∧
    (reset st).1.hasKey = st.hasKey ∧
    (∀ u, st.downloadUrl = some u → (reset st).2 = [u]) ∧
    (st.downloadUrl = none → (reset st).2 = []) := by
  refine ⟨rfl, rfl, rfl, rfl, rfl, ?_, ?_⟩
  · intro u hu
    simp [reset, hu]
  · intro hu
    simp [reset, hu]

/-- Claim C10 witness: resetting a completed state with a published
download URL yields the idle snapshot and revokes exactly that URL,
keeping the academic context. -/
theorem reset_restores_idle_witness :
    (reset ⟨true, ⟨"Commerce", "Economics", "Micro"⟩,
        ⟨ProcessStatus.COMPLETED, 100, "Solutions Ready"⟩,
        [⟨"1", "Q", some "A", none, none, none, none⟩],
        some "blob:1"⟩).1.processing =
      ⟨ProcessStatus.IDLE, 0, "System Ready"⟩ ∧
    (reset ⟨true, ⟨"Commerce", "Economics", "Micro"⟩,
        ⟨ProcessStatus.COMPLETED, 100, "Solutions Ready"⟩,
        [⟨"1", "Q", some "A", none, none, none, none⟩],
        some "blob:1"⟩).2 = ["blob:1"] ∧
    (reset ⟨true, ⟨"Commerce", "Economics", "Micro"⟩,
        ⟨ProcessStatus.COMPLETED, 100, "Solutions Ready"⟩,
        [⟨"1", "Q", some "A", none, none, none, none⟩],
        some "blob:1"⟩).1.context = ⟨"Commerce", "Economics", "Micro"⟩ := by
  refine ⟨(reset_restores_idle _).1, ?_, (reset_restores_idle _).2.2.2.1⟩
  exact (reset_restores_idle _).2.2.2.2.2.1 "blob:1" rfl
